import Mathlib

/-!
Shallow embedding of `pygoban.py` (the `GobanMaker` class) for verifying the
specification's claims about board layout, star-point placement, size
validation and grid labels.

Python numbers are modelled as follows: board sizes are `ℤ` (Python ints),
spacings, widths and physical coordinates are `ℚ` (Python floats carry exact
values on all inputs the claims touch: halving an even integer is exact).
A Python `raise` is modelled with `Except String` (the payload is the
exception message) or, for the mutating annotation-style setter, by returning
the final attribute state together with an optional raised message.
-/

namespace Pygoban

/-- Python's `string.ascii_uppercase` constant. -/
def ascii_uppercase : String := "ABCDEFGHIJKLMNOPQRSTUVWXYZ"

/-- Python `str.replace` in the only form the source uses — a one-character
    pattern with empty replacement: every occurrence of the character is
    dropped. -/
def pyReplaceEmpty (s : String) (c : Char) : String :=
  String.mk (s.data.filter (fun a => a ≠ c))

/-- A single-quote character, used when rendering Python f-string messages. -/
def squote : String := String.singleton (Char.ofNat 39)

/-- Python `str(x)` on an optional string: `None` renders as `"None"`. -/
def pyStr : Option String → String
| none => "None"
| some s => s

/-- Python `sep.join(items)` over a list whose members are `str` or `None`:
    a `None` member raises `TypeError` (message as CPython prints it);
    otherwise the members are interleaved with the separator. -/
def pyStrJoin (sep : String) (l : List (Option String)) : Except String String :=
  match l.findIdx? (fun o => o.isNone) with
  | some i => .error ("sequence item " ++ toString i ++ ": expected str instance, NoneType found")
  | none => .ok (String.intercalate sep (l.map (fun o => o.getD "")))

/-- Modelled from the spec: the external `cn2an.an2cn` converter — "the
    Chinese numeral text for (index+1)". Only the `chinese_numerals` branch of
    `_get_annotation_string` uses it and no claim exercises that branch; the
    model covers 1–99 in the usual compositional way. -/
def an2cn (n : ℕ) : String :=
  let digits := ["零", "一", "二", "三", "四", "五", "六", "七", "八", "九"]
  if n < 10 then digits.getD n ""
  else if n < 100 then
    (if n / 10 = 1 then "" else digits.getD (n / 10) "") ++ "十" ++
      (if n % 10 = 0 then "" else digits.getD (n % 10) "")
  else toString n

/-- The attributes of a `GobanMaker` instance that the claims touch. -/
structure GobanMaker where
  size : ℤ × ℤ
  line_widths : ℚ × ℚ
  line_spacing : ℚ × ℚ
  border_spacing : ℚ × ℚ
  x_annot : Option String
  y_annot : Option String
deriving DecidableEq

/-- The constructor's default attribute values (after the setters it calls):
    `size=(9,9)`, `line_widths=(1.,2.)` (order-normalized), `line_spacing=(22., 23.7)`,
    `border_spacing=(11.,12.)`, both axis styles `None`. -/
def default_goban : GobanMaker :=
  { size := (9, 9), line_widths := (1, 2), line_spacing := (22, 237/10),
    border_spacing := (11, 12), x_annot := none, y_annot := none }

/-- A Python value passed as a member of the `size` tuple: an `int`, or
    something that is not an `int`. -/
inductive PyVal where
| int (n : ℤ)
| nonint
deriving DecidableEq

/-- A Python value passed to `set_board_size`: an `int`, a tuple (of any
    length), or something that is neither. -/
inductive PySizeArg where
| int (n : ℤ)
| tup (l : List PyVal)
| other
deriving DecidableEq

/-- `GobanMaker.set_board_size`: an int becomes a square pair; a tuple must
    have exactly two int members; anything else raises. No positivity check
    is performed. -/
def set_board_size (g : GobanMaker) (size : PySizeArg) : Except String GobanMaker :=
  match size with
  | .int n => .ok { g with size := (n, n) }
  | .tup l =>
    if l.length ≠ 2 then
      .error "Board size must be two-dimensional."
    else
      match l with
      | [.int a, .int b] => .ok { g with size := (a, b) }
      | _ => .error "Parameter size must be a tuple of integers."
  | .other => .error "Parameter size may only be an int or a tuple."

/-- `GobanMaker.set_line_widths`: stores `(min(line_widths), max(line_widths))`. -/
def set_line_widths (g : GobanMaker) (lw : ℚ × ℚ) : GobanMaker :=
  { g with line_widths := (min lw.1 lw.2, max lw.1 lw.2) }

/-- The `legal_values` list of `set_grid_annotation_style`. -/
def legal_values : List (Option String) :=
  [none, some "arabic_numerals", some "chinese_numerals", some "latin_letters"]

/-- The message of the exception that `set_grid_annotation_style` actually
    raises on an illegal value: the `raise ValueError(f"...")` line first
    formats `", ".join(legal_values)`, and since `legal_values` starts with
    `None` that join itself raises `TypeError`, whose message replaces the
    intended one. -/
def annot_error_msg : String :=
  match pyStrJoin ", " legal_values with
  | .error e => e
  | .ok j => "Annotation must be one of " ++ j ++ "."

/-- `GobanMaker.set_grid_annotation_style`: checks and assigns `x_annotation`
    first, then `y_annotation`; a failed check raises (second component of
    the result), leaving any assignment already made in place. -/
def set_grid_annot_style (g : GobanMaker) (x y : Option String) :
    GobanMaker × Option String :=
  if x ∈ legal_values then
    let g1 := { g with x_annot := x }
    if y ∈ legal_values then
      ({ g1 with y_annot := y }, none)
    else
      (g1, some annot_error_msg)
  else
    (g, some annot_error_msg)

/-- `GobanMaker._get_board_dimensions`:
    `((size[0]-1)*line_spacing[0] + 2*border_spacing[0],
      (size[1]-1)*line_spacing[1] + 2*border_spacing[1])`. -/
def _get_board_dimensions (g : GobanMaker) : ℚ × ℚ :=
  (((g.size.1 : ℚ) - 1) * g.line_spacing.1 + 2 * g.border_spacing.1,
   ((g.size.2 : ℚ) - 1) * g.line_spacing.2 + 2 * g.border_spacing.2)

/-- `GobanMaker._get_auto_star_point_pos`: the four corner 3-3 points when
    both dimensions are at least 3; the centre when both are odd; the two
    horizontal-centre points when `size[0]` is odd; and when `size[1]` is odd
    the two points `(3, y_mid)` and `(size[1]-2, y_mid)` — the second one's
    first coordinate reads `size[1]`, exactly as the source does. -/
def _get_auto_star_point_pos (g : GobanMaker) : List (ℚ × ℚ) :=
  if 3 ≤ g.size.1 ∧ 3 ≤ g.size.2 then
    [((3 : ℚ), (3 : ℚ)),
     ((3 : ℚ), (g.size.2 : ℚ) - 2),
     ((g.size.1 : ℚ) - 2, (3 : ℚ)),
     ((g.size.1 : ℚ) - 2, (g.size.2 : ℚ) - 2)]
    ++ (if g.size.1 % 2 ≠ 0 ∧ g.size.2 % 2 ≠ 0 then
          [(((g.size.1 : ℚ) - 1) / 2 + 1, ((g.size.2 : ℚ) - 1) / 2 + 1)]
        else [])
    ++ (if g.size.1 % 2 ≠ 0 then
          [(((g.size.1 : ℚ) - 1) / 2 + 1, (3 : ℚ)),
           (((g.size.1 : ℚ) - 1) / 2 + 1, (g.size.2 : ℚ) - 2)]
        else [])
    ++ (if g.size.2 % 2 ≠ 0 then
          [((3 : ℚ), ((g.size.2 : ℚ) - 1) / 2 + 1),
           ((g.size.2 : ℚ) - 2, ((g.size.2 : ℚ) - 1) / 2 + 1)]
        else [])
  else []

/-- `GobanMaker._get_annotation_string`: formats the label for a 0-based grid
    line index in the given style. Python's `string[index]` raises
    `IndexError` when the index is out of range, modelled by the dependent
    bounds check on the character list. -/
def _get_annot_string (index : ℕ) (style : Option String) : Except String String :=
  if style = some "arabic_numerals" then
    .ok (toString (index + 1))
  else if style = some "latin_letters" then
    let letters := (pyReplaceEmpty ascii_uppercase 'I').data
    if h : index < letters.length then
      .ok (String.singleton (letters.get ⟨index, h⟩))
    else
      .error "IndexError: string index out of range"
  else if style = some "chinese_numerals" then
    .ok (an2cn (index + 1))
  else
    .error ("Unknown annotation style " ++ squote ++ pyStr style ++ squote ++ " specified.")

/-- The sequence of x-axis labels that `_draw_annotations` computes: one call
    of `_get_annotation_string` per vertical line index in
    `range(self.size[0])`; the first raising call aborts the loop. -/
def annot_labels (count : ℕ) (style : Option String) : Except String (List String) :=
  (List.range count).mapM (fun i => _get_annot_string i style)

/-- The uppercase Latin alphabet with the letter I removed, spelt out as the
    spec words it; compared against the code-side computation via
    `pyReplaceEmpty`. -/
def lettersNoI : List Char :=
  ['A', 'B', 'C', 'D', 'E', 'F', 'G', 'H', 'J', 'K', 'L', 'M',
   'N', 'O', 'P', 'Q', 'R', 'S', 'T', 'U', 'V', 'W', 'X', 'Y', 'Z']

/-- A 4x5 board (even columns, odd rows), exercising the rows-odd branch
    alone. -/
def goban_4x5 : GobanMaker := { default_goban with size := (4, 5) }

/-- A 2x9 board, smaller than 3 in its first dimension. -/
def goban_2x9 : GobanMaker := { default_goban with size := (2, 9) }

end Pygoban

deriving instance DecidableEq for Except

namespace Pygoban

/-- C1: for a 9x9 board in auto mode the star points are exactly the four
    3-3 points, the centre, the two column-centre points and the two
    row-centre points — nine points in the order the code appends them. -/
theorem auto_star_points_9x9 (g : GobanMaker) (h : g.size = (9, 9)) :
    _get_auto_star_point_pos g =
      [(3, 3), (3, 7), (7, 3), (7, 7), (5, 5), (5, 3), (5, 7), (3, 5), (7, 5)] := by
  norm_num [_get_auto_star_point_pos, h]

/-- Witness for C1: the default 9x9 configuration. -/
theorem auto_star_points_9x9_witness :
    _get_auto_star_point_pos default_goban =
      [(3, 3), (3, 7), (7, 3), (7, 7), (5, 5), (5, 3), (5, 7), (3, 5), (7, 5)] :=
  auto_star_points_9x9 default_goban rfl

/-- C2: `_get_board_dimensions` returns exactly
    `((cols-1)*spacing_x + 2*border_x, (rows-1)*spacing_y + 2*border_y)`. -/
theorem board_dimensions_formula (g : GobanMaker) (cols rows : ℤ) (sx sy bx b2 : ℚ)
    (hs : g.size = (cols, rows)) (hl : g.line_spacing = (sx, sy))
    (hb : g.border_spacing = (bx, b2)) :
    _get_board_dimensions g =
      (((cols : ℚ) - 1) * sx + 2 * bx, ((rows : ℚ) - 1) * sy + 2 * b2) := by
  simp [_get_board_dimensions, hs, hl, hb]

/-- Witness for C2: the default configuration. -/
theorem board_dimensions_formula_witness :
    _get_board_dimensions default_goban =
      (((9 : ℚ) - 1) * 22 + 2 * 11, ((9 : ℚ) - 1) * (237/10) + 2 * 12) :=
  board_dimensions_formula default_goban 9 9 22 (237/10) 11 12 rfl rfl rfl

/-- Counterexample to C3: a pair containing a zero dimension is silently
    accepted by `set_board_size` — it returns the updated state, not an
    error. -/
theorem set_board_size_zero_accepted :
    set_board_size default_goban (.tup [.int 0, .int 9]) =
      .ok { default_goban with size := (0, 9) } := rfl

/-- C3 as amended: a non-integer member, a tuple of length other than two,
    and a non-int non-tuple argument each raise deterministically, and an
    `int` becomes a square pair; but any two-int tuple — zero or negative
    dimensions included — is accepted without a positivity check. -/
theorem set_board_size_validation (g : GobanMaker) :
    (∀ n : ℤ, set_board_size g (.int n) = .ok { g with size := (n, n) }) ∧
    (∀ l : List PyVal, l.length ≠ 2 →
      set_board_size g (.tup l) = .error "Board size must be two-dimensional.") ∧
    (∀ v w : PyVal, v = .nonint ∨ w = .nonint →
      set_board_size g (.tup [v, w]) =
        .error "Parameter size must be a tuple of integers.") ∧
    (set_board_size g .other = .error "Parameter size may only be an int or a tuple.") ∧
    (∀ a b : ℤ, set_board_size g (.tup [.int a, .int b]) = .ok { g with size := (a, b) }) := by
  refine ⟨fun n => rfl, fun l hl => ?_, fun v w h => ?_, rfl, fun a b => rfl⟩
  · simp only [set_board_size, if_pos hl]
  · rcases h with rfl | rfl
    · cases w <;> rfl
    · cases v <;> rfl

/-- Witness for C3 (amended): wrong length, non-integer member, and the
    silently accepted zero dimension, at concrete inputs. -/
theorem set_board_size_validation_witness :
    set_board_size default_goban (.tup [.int 3]) =
      .error "Board size must be two-dimensional." ∧
    set_board_size default_goban (.tup [.nonint, .int 9]) =
      .error "Parameter size must be a tuple of integers." ∧
    set_board_size default_goban (.tup [.int 0, .int 9]) =
      .ok { default_goban with size := (0, 9) } :=
  ⟨(set_board_size_validation default_goban).2.1 [.int 3] (by decide),
   (set_board_size_validation default_goban).2.2.1 .nonint (.int 9) (Or.inl rfl),
   (set_board_size_validation default_goban).2.2.2.2 0 9⟩

/-- Counterexample to C4: setting the unrecognized style "foo" raises, but
    the raised message does not contain "foo" — the `ValueError`'s f-string
    joins `legal_values`, whose first member is `None`, so the join's
    `TypeError` message is what surfaces. -/
theorem annot_style_error_lacks_name :
    (set_grid_annot_style default_goban (some "foo") none).2 = some annot_error_msg ∧
    ¬ ("foo".data <:+: annot_error_msg.data) := by
  constructor
  · rfl
  · decide

/-- C4 as amended: an unrecognized style raises deterministically, but the
    setter's message is a constant that does not mention the style name
    (the legal-values join fails on `None`); the unrecognized name appears
    only in the render-time message of `_get_annotation_string`. -/
theorem annot_style_error_behavior :
    (∀ (g : GobanMaker) (x y : Option String), x ∉ legal_values →
      set_grid_annot_style g x y = (g, some annot_error_msg)) ∧
    annot_error_msg = "sequence item 0: expected str instance, NoneType found" ∧
    (∀ (s : String) (i : ℕ), some s ∉ legal_values →
      ∃ msg, _get_annot_string i (some s) = .error msg ∧ s.data <:+: msg.data) := by
  refine ⟨fun g x y hx => ?_, rfl, fun s i hs => ?_⟩
  · simp [set_grid_annot_style, hx]
  · simp only [legal_values, List.mem_cons, List.not_mem_nil, or_false,
      Option.some.injEq, not_or] at hs
    refine ⟨"Unknown annotation style " ++ squote ++ s ++ squote ++ " specified.", ?_, ?_⟩
    · simp [_get_annot_string, pyStr, hs.2.1, hs.2.2.1, hs.2.2.2]
    · exact ⟨("Unknown annotation style " ++ squote).data,
        (squote ++ " specified.").data, by simp [String.data_append]⟩

/-- Witness for C4 (amended): concrete invalid style "fancy". -/
theorem annot_style_error_behavior_witness :
    set_grid_annot_style default_goban (some "fancy") none =
      (default_goban, some annot_error_msg) ∧
    (∃ msg, _get_annot_string 0 (some "fancy") = .error msg ∧ "fancy".data <:+: msg.data) :=
  ⟨annot_style_error_behavior.1 default_goban (some "fancy") none (by decide),
   annot_style_error_behavior.2.2 "fancy" 0 (by decide)⟩

/-- C5: whenever both dimensions are at least 3 and the row count is odd,
    the auto star-point list ends with exactly the two extra points
    `(3, y_mid)` and `(rows-2, y_mid)` with `y_mid = (rows-1)/2 + 1` — the
    second point's first coordinate computed from the row dimension. -/
theorem rows_odd_side_points (g : GobanMaker) (h1 : 3 ≤ g.size.1)
    (h2 : 3 ≤ g.size.2) (h3 : g.size.2 % 2 = 1) :
    ∃ pre, _get_auto_star_point_pos g =
      pre ++ [((3 : ℚ), ((g.size.2 : ℚ) - 1) / 2 + 1),
              ((g.size.2 : ℚ) - 2, ((g.size.2 : ℚ) - 1) / 2 + 1)] := by
  refine ⟨[((3 : ℚ), (3 : ℚ)), ((3 : ℚ), (g.size.2 : ℚ) - 2),
      ((g.size.1 : ℚ) - 2, (3 : ℚ)), ((g.size.1 : ℚ) - 2, (g.size.2 : ℚ) - 2)]
    ++ (if g.size.1 % 2 ≠ 0 ∧ g.size.2 % 2 ≠ 0 then
          [(((g.size.1 : ℚ) - 1) / 2 + 1, ((g.size.2 : ℚ) - 1) / 2 + 1)]
        else [])
    ++ (if g.size.1 % 2 ≠ 0 then
          [(((g.size.1 : ℚ) - 1) / 2 + 1, (3 : ℚ)),
           (((g.size.1 : ℚ) - 1) / 2 + 1, (g.size.2 : ℚ) - 2)]
        else []), ?_⟩
  unfold _get_auto_star_point_pos
  rw [if_pos ⟨h1, h2⟩, if_pos (show g.size.2 % 2 ≠ 0 by omega)]

/-- Witness for C5: the 4x5 board — with `rows = 5`, `y_mid = 3`, and both
    appended points degenerate to `(3, 3)` because the second one's first
    coordinate reads the row dimension. -/
theorem rows_odd_side_points_witness :
    ∃ pre, _get_auto_star_point_pos goban_4x5 =
      pre ++ [((3 : ℚ), ((goban_4x5.size.2 : ℚ) - 1) / 2 + 1),
              ((goban_4x5.size.2 : ℚ) - 2, ((goban_4x5.size.2 : ℚ) - 1) / 2 + 1)] :=
  rows_odd_side_points goban_4x5 (by decide) (by decide) (by decide)

/-- C6: when either dimension is below 3, auto mode yields no star points. -/
theorem small_board_no_star_points (g : GobanMaker)
    (h : g.size.1 < 3 ∨ g.size.2 < 3) :
    _get_auto_star_point_pos g = [] := by
  unfold _get_auto_star_point_pos
  rw [if_neg (by omega : ¬(3 ≤ g.size.1 ∧ 3 ≤ g.size.2))]

/-- Witness for C6: the 2x9 board. -/
theorem small_board_no_star_points_witness :
    _get_auto_star_point_pos goban_2x9 = [] :=
  small_board_no_star_points goban_2x9 (Or.inl (by decide))

/-- C7: after `set_line_widths` the stored pair is order-normalized — the
    first component never exceeds the second, whatever order the caller
    supplied (the constructor's call is the instance `lw = (1, 2)`). -/
theorem line_widths_normalized (g : GobanMaker) (lw : ℚ × ℚ) :
    (set_line_widths g lw).line_widths.1 ≤ (set_line_widths g lw).line_widths.2 :=
  min_le_max

/-- Counterexample to C8: the latin-letter label for 0-based index 7 is "H",
    not "J" — "J" sits at index 8 of the alphabet with "I" removed. -/
theorem latin_letter_index7 :
    _get_annot_string 7 (some "latin_letters") = .ok "H" ∧
    _get_annot_string 7 (some "latin_letters") ≠ .ok "J" := by
  constructor
  · rfl
  · decide

/-- C8 as amended: latin-letter labels map index 0 to "A" and index 8 to
    "J"; for every index in range the label is the (index+1)-th uppercase
    Latin letter of the alphabet with "I" removed. -/
theorem latin_letter_labels :
    ∀ i < 25, _get_annot_string i (some "latin_letters") =
      .ok (String.singleton (lettersNoI.getD i 'A')) := by
  decide

/-- Witness for C8 (amended): index 0 gives "A", index 8 gives "J". -/
theorem latin_letter_labels_witness :
    _get_annot_string 0 (some "latin_letters") = .ok "A" ∧
    _get_annot_string 8 (some "latin_letters") = .ok "J" :=
  ⟨(latin_letter_labels 0 (by decide)).trans (by decide),
   (latin_letter_labels 8 (by decide)).trans (by decide)⟩

/-- C9: `set_grid_annotation_style` is not atomic — with a valid
    `x_annotation` and an invalid `y_annotation` it raises, but only after
    `x_annotation` was assigned, leaving the state partially modified. -/
theorem annot_style_partial_update (g : GobanMaker) (x y : Option String)
    (hx : x ∈ legal_values) (hy : y ∉ legal_values) :
    set_grid_annot_style g x y =
      ({ g with x_annot := x }, some annot_error_msg) := by
  simp [set_grid_annot_style, hx, hy]

/-- Witness for C9: valid "latin_letters" and invalid "fancy" on the default
    state. -/
theorem annot_style_partial_update_witness :
    set_grid_annot_style default_goban (some "latin_letters") (some "fancy") =
      ({ default_goban with x_annot := some "latin_letters" }, some annot_error_msg) :=
  annot_style_partial_update default_goban (some "latin_letters") (some "fancy")
    (by decide) (by decide)

/-- C10: latin-letter labels exist exactly for indices 0..24; every index
    from 25 on raises `IndexError`, so rendering 26 labels (a 26-line axis)
    fails. -/
theorem latin_letter_overflow :
    (∀ i : ℕ, 25 ≤ i → _get_annot_string i (some "latin_letters") =
      .error "IndexError: string index out of range") ∧
    (∀ i < 25, (_get_annot_string i (some "latin_letters")).isOk = true) ∧
    annot_labels 26 (some "latin_letters") =
      .error "IndexError: string index out of range" := by
  refine ⟨fun i hi => ?_, by decide, by decide⟩
  simp only [_get_annot_string, if_true]
  rw [dif_neg (by
    have h25 : ((pyReplaceEmpty ascii_uppercase 'I').data).length = 25 := by decide
    omega)]
  rw [if_neg (show ¬(some "latin_letters" = some "arabic_numerals") by decide)]

/-- Witness for C10: the boundary indices 25 and 24. -/
theorem latin_letter_overflow_witness :
    _get_annot_string 25 (some "latin_letters") =
      .error "IndexError: string index out of range" ∧
    (_get_annot_string 24 (some "latin_letters")).isOk = true :=
  ⟨latin_letter_overflow.1 25 (by decide), latin_letter_overflow.2.1 24 (by decide)⟩

end Pygoban
